import Mathlib

/-!
Verification of the Sparkify data-lake ETL job (etl.py) against its design
specification.  The pipeline is embedded shallowly: Spark dataframes become
Lean lists of records, nullable columns become Option-valued fields, the
Spark filter / select / distinct / join operators become List.filter,
List.map, List.dedup and a product join, and the timestamp machinery
(epoch-millisecond conversion, calendar decomposition, the SimpleDateFormat
round trip of line 148) is modelled arithmetically over natural numbers.
Raw timestamps are taken to be nonnegative integer epoch milliseconds, as
in the source dataset; doubles that carry durations are embedded as
rationals, so the equality join on duration is exact equality, as in the
code.
-/

/-! ## Calendar arithmetic (UTC, proleptic Gregorian)

Days-to-civil and civil-to-days conversions, valid for all days since the
epoch (1970-01-01).  These model the calendar functions year, month,
dayofmonth, hour, weekofyear and the SimpleDateFormat pattern letter u
used by the code. -/

/-- Civil date (year, month, day) of a day count since 1970-01-01. -/
def civilFromDays (days : ℕ) : ℕ × ℕ × ℕ :=
  let z := days + 719468
  let era := z / 146097
  let doe := z % 146097
  let yoe := (doe - doe / 1460 + doe / 36524 - doe / 146096) / 365
  let y := yoe + era * 400
  let doy := doe - (365 * yoe + yoe / 4 - yoe / 100)
  let mp := (5 * doy + 2) / 153
  let d := doy - (153 * mp + 2) / 5 + 1
  let m := if mp < 10 then mp + 3 else mp - 9
  (if m ≤ 2 then y + 1 else y, m, d)

/-- Day count since 1970-01-01 of a civil date (valid from 1970 on). -/
def daysFromCivil (y m d : ℕ) : ℕ :=
  let yy := if m ≤ 2 then y - 1 else y
  let era := yy / 400
  let yoe := yy % 400
  let doy := (153 * (if 2 < m then m - 3 else m + 9) + 2) / 5 + d - 1
  let doe := yoe * 365 + yoe / 4 - yoe / 100 + doy
  era * 146097 + doe - 719468

/-- Whole days since the epoch of an epoch-second value. -/
def epochDay (s : ℕ) : ℕ := s / 86400

/-- Hour of day of an epoch-second value. -/
def hourOf (s : ℕ) : ℕ := s / 3600 % 24

/-- Minute of hour of an epoch-second value. -/
def minuteOf (s : ℕ) : ℕ := s / 60 % 60

/-- Second of minute of an epoch-second value. -/
def secondOf (s : ℕ) : ℕ := s % 60

/-- Calendar year of an epoch-second value. -/
def yearOf (s : ℕ) : ℕ := (civilFromDays (epochDay s)).1

/-- Calendar month of an epoch-second value. -/
def monthOf (s : ℕ) : ℕ := (civilFromDays (epochDay s)).2.1

/-- Day of month of an epoch-second value. -/
def dayOf (s : ℕ) : ℕ := (civilFromDays (epochDay s)).2.2

/-- ISO weekday number (1 = Monday .. 7 = Sunday) of a day count since the
epoch; day 0, 1970-01-01, was a Thursday, hence the offset 3.  This models
the SimpleDateFormat pattern letter u used at line 159 of etl.py. -/
def isoWeekday (day : ℕ) : ℕ := (day + 3) % 7 + 1

/-- Number of ISO weeks in a year: 53 when the year starts or ends on a
Thursday, else 52. -/
def isoWeeksInYear (y : ℕ) : ℕ :=
  if isoWeekday (daysFromCivil y 1 1) = 4 ∨ isoWeekday (daysFromCivil y 12 31) = 4
  then 53 else 52

/-- Ordinal day of year (1-based) of a civil date. -/
def dayOfYear (y m d : ℕ) : ℕ := daysFromCivil y m d - daysFromCivil y 1 1 + 1

/-- ISO week-of-year number of a civil date, modelling Spark's weekofyear
(a Calendar with first day Monday and minimal days in first week 4). -/
def weekOfYear (y m d : ℕ) : ℕ :=
  let w := isoWeekday (daysFromCivil y m d)
  let wk := (dayOfYear y m d + 10 - w) / 7
  if wk = 0 then isoWeeksInYear (y - 1)
  else if wk = 53 ∧ isoWeeksInYear y = 52 then 1 else wk

/-- ISO week-of-year of an epoch-second value. -/
def weekOf (s : ℕ) : ℕ := weekOfYear (yearOf s) (monthOf s) (dayOf s)

/-! ## IEEE-754 binary32 rounding of integer values

The log schema (line 118 of etl.py) declares the ts column as FloatType, a
single-precision float, so the integer epoch-millisecond value of each raw
record is rounded to the nearest binary32 value on read.  For a natural
number below 2 to the 64 this rounding is: exact below 2 to the 24, else
round to the nearest multiple of one unit in the last place (2 to the
(log2 - 23)), ties to the even quotient. -/

/-- Round x to the nearest multiple of u, ties to the even multiple. -/
def roundEvenMult (x u : ℕ) : ℕ :=
  if 2 * (x % u) < u then x / u * u
  else if u < 2 * (x % u) then (x / u + 1) * u
  else if x / u % 2 = 0 then x / u * u else (x / u + 1) * u

/-- Fuelled binary logarithm; the fuel bounds the recursion depth. -/
def log2fuel : ℕ → ℕ → ℕ
  | 0, _ => 0
  | f + 1, n => if n < 2 then 0 else log2fuel f (n / 2) + 1

/-- Floor of the binary logarithm, correct for n below 2 to the 64 (raw
epoch-millisecond timestamps are near 1.5e12, far below this bound). -/
def natLog2 (n : ℕ) : ℕ := log2fuel 64 n

/-- The IEEE-754 binary32 value nearest to a natural number, as a natural
number (round to nearest, ties to even); exact below 2 to the 24. -/
def f32round (x : ℕ) : ℕ :=
  if x < 2 ^ 24 then x else roundEvenMult x (2 ^ (natLog2 x - 23))

/-! ## Record schemas (lines 47-57, 102-121, 166-176 of etl.py)

Nullable columns are Option-valued.  Double columns are embedded as
rationals; the ts column, declared FloatType over integer epoch
milliseconds, is embedded as a natural number of milliseconds with the
binary32 read rounding applied by the reader below. -/

structure SongRecord where
  artist_id : Option String
  artist_latitude : Option ℚ
  artist_longitude : Option ℚ
  artist_location : Option String
  artist_name : Option String
  song_id : Option String
  title : Option String
  duration : Option ℚ
  year : Option ℚ
deriving DecidableEq

structure LogRecord where
  artist : Option String
  auth : Option String
  firstName : Option String
  gender : Option String
  itemInSession : Option Int
  lastName : Option String
  length : Option ℚ
  level : Option String
  location : Option String
  method : Option String
  page : Option String
  registration : Option ℚ
  sessionId : Option Int
  song : Option String
  status : Option Int
  ts : Option ℕ
  userAgent : Option String
  userId : Option String
deriving DecidableEq

/-- Reading a raw log record against the schema of lines 102-121: the ts
field is declared FloatType, so its integer millisecond value is rounded
to the nearest binary32 value; every other field is taken as is. -/
def read_log_row (r : LogRecord) : LogRecord := { r with ts := r.ts.map f32round }

/-- Schema-directed read of the log dataset (line 126); a glob matching
zero files yields the empty dataset. -/
def read_log (df : List LogRecord) : List LogRecord := df.map read_log_row

/-! ## Output row shapes (the five star-schema tables) -/

structure SongsRow where
  song_id : Option String
  artist_id : Option String
  year : Option ℚ
  duration : Option ℚ
deriving DecidableEq

structure ArtistRow where
  artist_id : Option String
  name : Option String
  location : Option String
  latitude : Option ℚ
  longitude : Option ℚ
deriving DecidableEq

structure UserRow where
  user_id : Option String
  first_name : Option String
  last_name : Option String
  gender : Option String
  level : Option String
deriving DecidableEq

structure TimeRow where
  start_time : Option ℕ
  hour : Option ℕ
  day : Option ℕ
  week : Option ℕ
  month : Option ℕ
  year : Option ℕ
deriving DecidableEq

structure TimeRowW where
  start_time : Option ℕ
  hour : Option ℕ
  day : Option ℕ
  week : Option ℕ
  month : Option ℕ
  year : Option ℕ
  weekday : Option ℕ
deriving DecidableEq

structure SongPlayRow where
  songplay_id : ℕ
  start_time : Option ℕ
  user_id : Option String
  level : Option String
  song_id : Option String
  artist_id : Option String
  session_id : Option Int
  location : Option String
  user_agent : Option String
  month : Option ℕ
  year : Option ℕ
deriving DecidableEq

/-! ## process_song_data (lines 31-85 of etl.py) -/

/-- Line 65: the songs table is a plain projection of the song dataset onto
(song_id, artist_id, year, duration).  Note that, unlike every other
dimension table, no distinct() is applied. -/
def songs_table (df : List SongRecord) : List SongsRow :=
  df.map fun r => ⟨r.song_id, r.artist_id, r.year, r.duration⟩

/-- Lines 74-78: projection with renames followed by distinct().  Spark's
distinct is set-deduplication over the whole row (null-safe equality),
modelled by List.dedup over the projected rows. -/
def artist_table (df : List SongRecord) : List ArtistRow :=
  (df.map fun r =>
    ⟨r.artist_id, r.artist_name, r.artist_location, r.artist_latitude, r.artist_longitude⟩).dedup

/-- The pair of tables materialized by process_song_data. -/
def process_song_data (df : List SongRecord) : List SongsRow × List ArtistRow :=
  (songs_table df, artist_table df)

/-! ## process_log_data (lines 87-207 of etl.py) -/

/-- Line 130: filter by actions for song plays.  Spark's == filter keeps a
row only when page is non-null and equal to the literal. -/
def df_filtered (df : List LogRecord) : List LogRecord :=
  df.filter fun r => decide (r.page = some "NextSong")

/-- Lines 134-142: users table, projected with renames from the filtered
log data, then distinct(). -/
def users_table (df : List LogRecord) : List UserRow :=
  ((df_filtered df).map fun r =>
    ⟨r.userId, r.firstName, r.lastName, r.gender, r.level⟩).dedup

/-- Line 148: the ts column is divided by 1000 (epoch milliseconds to
epoch seconds, floor at the whole-second precision that the subsequent
date_format exposes), then pushed through
to_timestamp(date_format(.., pat), pat) with pat = "yyyy-MM-dd HH:MM:ss z".
The pattern letter MM means month-of-year, not minute-of-hour (which would
be mm), so formatting writes the month where the minutes would stand and
parsing reads that slot back as the month again; the minute field is never
supplied to the parser and defaults to 0.  The round trip therefore
reconstructs the timestamp from its year, month, day, hour and second
with the minute forced to 0. -/
def convertTs (s : ℕ) : ℕ :=
  daysFromCivil (yearOf s) (monthOf s) (dayOf s) * 86400
    + hourOf s * 3600 + 0 * 60 + secondOf s

/-- Line 148 applied to the filtered dataframe: the ts column is replaced
by the converted timestamp (null stays null). -/
def df_converted (df : List LogRecord) : List LogRecord :=
  (df_filtered df).map fun r => { r with ts := r.ts.map fun t => convertTs (t / 1000) }

/-- One row of the time-table projection of lines 152-157, before the
weekday column is added: each field is the corresponding calendar
component of the converted timestamp (null when ts is null). -/
def time_row (r : LogRecord) : TimeRow :=
  ⟨r.ts, r.ts.map hourOf, r.ts.map dayOf, r.ts.map weekOf, r.ts.map monthOf, r.ts.map yearOf⟩

/-- Lines 152-157: project the converted dataframe onto the time columns
and apply distinct(). -/
def time_table_base (df : List LogRecord) : List TimeRow :=
  ((df_converted df).map time_row).dedup

/-- Line 159: append the weekday column, date_format(start_time, u): the
ISO weekday number of the start_time (null when start_time is null).
The source column is a string; its numeric value is what is modelled. -/
def addWeekday (r : TimeRow) : TimeRowW :=
  ⟨r.start_time, r.hour, r.day, r.week, r.month, r.year,
   r.start_time.map fun t => isoWeekday (epochDay t)⟩

/-- Lines 152-159: the finished time table. -/
def time_table (df : List LogRecord) : List TimeRowW :=
  (time_table_base df).map addWeekday

/-- Spark's == used as a join predicate: true iff both sides are non-null
and equal (a null on either side never matches). -/
def optEq {α : Type} [DecidableEq α] (a b : Option α) : Bool :=
  match a, b with
  | some x, some y => decide (x = y)
  | _, _ => false

/-- Lines 184-186: inner equality join of the song dataset with the
converted log dataframe on artist name, title, and (exact) duration. -/
def song_plays_joined (songs : List SongRecord) (logs : List LogRecord) :
    List (SongRecord × LogRecord) :=
  songs.flatMap fun s =>
    ((df_converted logs).filter fun l =>
      optEq l.artist s.artist_name && optEq l.song s.title
        && optEq l.length s.duration).map fun l => (s, l)

/-- Lines 194-204: the fact-row projection, given the id assigned at
line 190 and a joined (song, log) pair. -/
def songplay_row (i : ℕ) (p : SongRecord × LogRecord) : SongPlayRow :=
  ⟨i, p.2.ts, p.2.userId, p.2.level, p.1.song_id, p.1.artist_id,
   p.2.sessionId, p.2.location, p.2.userAgent,
   p.2.ts.map monthOf, p.2.ts.map yearOf⟩

/-- Line 190: monotonically_increasing_id assigns each row a run-unique,
increasing identifier; modelled as sequential numbering from a base. -/
def addIds : ℕ → List (SongRecord × LogRecord) → List SongPlayRow
  | _, [] => []
  | i, p :: rest => songplay_row i p :: addIds (i + 1) rest

/-- Lines 184-204: the song-plays fact table. -/
def song_plays (songs : List SongRecord) (logs : List LogRecord) : List SongPlayRow :=
  addIds 0 (song_plays_joined songs logs)

/-- The triple of tables materialized by process_log_data (it reads the
raw song dataset again for the join). -/
def process_log_data (logs : List LogRecord) (songs : List SongRecord) :
    List UserRow × List TimeRowW × List SongPlayRow :=
  (users_table logs, time_table logs, song_plays songs logs)

/-! ## Concrete sample records, used as test inputs -/

/-- A sample song record with all fields populated. -/
def sampleSong : SongRecord :=
  ⟨some "AR001", some (41 : ℚ), some (-72 : ℚ), some "England", some "The Prodigy",
   some "SO001", some "Breathe", some (260 : ℚ), some (1996 : ℚ)⟩

/-- A sample NextSong log record matching sampleSong on all three join
keys; its raw ts is 1542999769088 epoch milliseconds (2018-11-23). -/
def sampleLog : LogRecord :=
  ⟨some "The Prodigy", some "Logged In", some "Ava", some "F", some 0, some "Robinson",
   some (260 : ℚ), some "free", some "New Haven", some "PUT", some "NextSong",
   some (1540931983000 : ℚ), some 7, some "Breathe", some 200, some 1542999769088,
   some "Mozilla", some "50"⟩

/-- A second play of the same song in another session. -/
def sampleLog2 : LogRecord := { sampleLog with sessionId := some 8, itemInSession := some 1 }

/-- A Login event of another user. -/
def loginLog : LogRecord :=
  { sampleLog with page := some "Login", userId := some "99", artist := none,
                   song := none, length := none }

/-- A Help event of the same other user. -/
def helpLog : LogRecord := { loginLog with page := some "Help" }

/-- A NextSong record whose raw ts is 0.0 (the epoch boundary case). -/
def epochLog : LogRecord := { sampleLog with ts := some 0 }

/-- A NextSong record whose raw ts is 60000.0, i.e. 1970-01-01 00:01:00. -/
def minuteLog : LogRecord := { sampleLog with ts := some 60000 }

/-- A NextSong record whose raw ts 1542999769088 is an exact multiple of
131072 = 2 to the 17, hence exactly representable in binary32. -/
def collideLogA : LogRecord := sampleLog

/-- A NextSong record one minute (60000 ms) after collideLogA, in another
session; its raw ts rounds to the same binary32 value. -/
def collideLogB : LogRecord :=
  { sampleLog with sessionId := some 9, ts := some 1542999829088 }

/-! ## Helper lemmas -/

lemma mem_df_filtered {df : List LogRecord} {l : LogRecord} :
    l ∈ df_filtered df ↔ l ∈ df ∧ l.page = some "NextSong" := by
  simp [df_filtered, List.mem_filter]

lemma optEq_eq_true_iff {α : Type} [DecidableEq α] {a b : Option α} :
    optEq a b = true ↔ ∃ x, a = some x ∧ b = some x := by
  cases a with
  | none => simp [optEq]
  | some x =>
    cases b with
    | none => simp [optEq]
    | some y =>
      simp only [optEq, decide_eq_true_eq, Option.some.injEq]
      constructor
      · intro h; exact ⟨x, rfl, h.symm⟩
      · rintro ⟨z, rfl, rfl⟩; rfl

lemma mem_song_plays_joined {songs : List SongRecord} {logs : List LogRecord}
    {s : SongRecord} {l : LogRecord} :
    (s, l) ∈ song_plays_joined songs logs ↔
      s ∈ songs ∧ l ∈ df_converted logs ∧
      optEq l.artist s.artist_name = true ∧ optEq l.song s.title = true ∧
      optEq l.length s.duration = true := by
  simp only [song_plays_joined, List.mem_flatMap, List.mem_map, List.mem_filter,
    Bool.and_eq_true, Prod.mk.injEq]
  constructor
  · rintro ⟨s', hs', l', ⟨hl', ⟨ha, hso⟩, hd⟩, rfl, rfl⟩
    exact ⟨hs', hl', ha, hso, hd⟩
  · rintro ⟨hs, hl, ha, hso, hd⟩
    exact ⟨s, hs, l, ⟨hl, ⟨ha, hso⟩, hd⟩, rfl, rfl⟩

lemma mem_addIds {p : SongPlayRow} :
    ∀ {n : ℕ} {l : List (SongRecord × LogRecord)},
      p ∈ addIds n l → ∃ k pr, pr ∈ l ∧ p = songplay_row k pr := by
  intro n l
  induction l generalizing n with
  | nil => intro h; simp [addIds] at h
  | cons hd tl ih =>
    intro h
    rcases List.mem_cons.mp h with h | h
    · exact ⟨n, hd, List.mem_cons_self _ _, h⟩
    · obtain ⟨k, pr, hpr, he⟩ := ih h
      exact ⟨k, pr, List.mem_cons_of_mem _ hpr, he⟩

lemma addIds_length : ∀ (l : List (SongRecord × LogRecord)) (n : ℕ),
    (addIds n l).length = l.length := by
  intro l
  induction l with
  | nil => intro n; rfl
  | cons hd tl ih => intro n; simp [addIds, ih]

lemma addIds_songplay_id :
    ∀ (l : List (SongRecord × LogRecord)) (n i : ℕ) (h : i < (addIds n l).length),
      ((addIds n l).get ⟨i, h⟩).songplay_id = n + i := by
  intro l
  induction l with
  | nil => intro n i h; simp [addIds] at h
  | cons hd tl ih =>
    intro n i h
    cases i with
    | zero => simp [addIds, songplay_row, List.get]
    | succ i' =>
      have h' : i' < (addIds (n + 1) tl).length := by
        have hh := h
        simp [addIds] at hh
        omega
      have ht := ih (n + 1) i' h'
      have he : (addIds n (hd :: tl)).get ⟨i' + 1, h⟩ = (addIds (n + 1) tl).get ⟨i', h'⟩ := rfl
      rw [he, ht]
      omega

lemma mem_time_table {df : List LogRecord} {r : TimeRowW} :
    r ∈ time_table df ↔ ∃ l ∈ df_converted df, r = addWeekday (time_row l) := by
  simp only [time_table, time_table_base, List.mem_map, List.mem_dedup]
  constructor
  · rintro ⟨b, ⟨l, hl, rfl⟩, rfl⟩; exact ⟨l, hl, rfl⟩
  · rintro ⟨l, hl, rfl⟩; exact ⟨time_row l, ⟨l, hl, rfl⟩, rfl⟩

lemma time_table_fields {df : List LogRecord} {r : TimeRowW} (hr : r ∈ time_table df) :
    r.month = r.start_time.map monthOf ∧ r.year = r.start_time.map yearOf ∧
    r.hour = r.start_time.map hourOf ∧
    r.weekday = r.start_time.map fun t => isoWeekday (epochDay t) := by
  obtain ⟨l, _, rfl⟩ := mem_time_table.mp hr
  simp [addWeekday, time_row]

lemma song_plays_fields {songs : List SongRecord} {logs : List LogRecord}
    {p : SongPlayRow} (hp : p ∈ song_plays songs logs) :
    p.month = p.start_time.map monthOf ∧ p.year = p.start_time.map yearOf := by
  obtain ⟨k, pr, _, rfl⟩ := mem_addIds hp
  simp [songplay_row]

lemma addWeekday_injective : Function.Injective addWeekday := by
  intro a b h
  cases a; cases b
  simp only [addWeekday, TimeRowW.mk.injEq] at h
  simp only [TimeRow.mk.injEq]
  exact ⟨h.1, h.2.1, h.2.2.1, h.2.2.2.1, h.2.2.2.2.1, h.2.2.2.2.2.1⟩

lemma isoWeekday_range (d : ℕ) : 1 ≤ isoWeekday d ∧ isoWeekday d ≤ 7 := by
  unfold isoWeekday; omega

lemma df_filtered_idem (df : List LogRecord) :
    df_filtered (df_filtered df) = df_filtered df := by
  apply List.filter_eq_self.mpr
  intro a ha
  exact (List.mem_filter.mp ha).2

lemma df_converted_of_filtered (df : List LogRecord) :
    df_converted (df_filtered df) = df_converted df := by
  unfold df_converted
  rw [df_filtered_idem]

lemma log2fuel_eq : ∀ (k f n : ℕ), k < f → 2 ^ k ≤ n → n < 2 ^ (k + 1) →
    log2fuel f n = k := by
  intro k
  induction k with
  | zero =>
    intro f n hf h1 h2
    have hn : n < 2 := by simpa using h2
    cases f with
    | zero => omega
    | succ f' => simp [log2fuel, hn]
  | succ k' ih =>
    intro f n hf h1 h2
    have h2le : (2 : ℕ) ^ 1 ≤ 2 ^ (k' + 1) := Nat.pow_le_pow_right (by norm_num) (by omega)
    have hn2 : ¬ n < 2 := by simp at h2le; omega
    cases f with
    | zero => omega
    | succ f' =>
      have hlow : 2 ^ k' ≤ n / 2 := by
        rw [Nat.le_div_iff_mul_le (by norm_num)]
        calc 2 ^ k' * 2 = 2 ^ (k' + 1) := by ring
        _ ≤ n := h1
      have hhigh : n / 2 < 2 ^ (k' + 1) := by
        rw [Nat.div_lt_iff_lt_mul (by norm_num)]
        calc n < 2 ^ (k' + 1 + 1) := h2
        _ = 2 ^ (k' + 1) * 2 := by ring
      have := ih f' (n / 2) (by omega) hlow hhigh
      simp [log2fuel, hn2, this]

lemma f32round_granularity {t : ℕ} (h1 : 2 ^ 40 ≤ t) (h2 : t < 2 ^ 41) :
    f32round t % 2 ^ 17 = 0 := by
  have hlog : natLog2 t = 40 := log2fuel_eq 40 64 t (by norm_num) h1 (by exact h2)
  have hge : ¬ t < 2 ^ 24 := by
    have : (2 : ℕ) ^ 24 ≤ 2 ^ 40 := Nat.pow_le_pow_right (by norm_num) (by norm_num)
    omega
  unfold f32round
  rw [if_neg hge, hlog]
  show roundEvenMult t (2 ^ (40 - 23)) % 2 ^ 17 = 0
  have h17 : (40 : ℕ) - 23 = 17 := by norm_num
  rw [h17]
  unfold roundEvenMult
  split_ifs <;> simp [Nat.mul_mod_left]

/-! ## Claim theorems -/

/-- C1, counterexample: the claim that every dimension table is free of
duplicate rows fails on the songs table, which is built at line 65 without
distinct(): an input holding the same song record twice yields a songs
table of two identical rows (one distinct projected row, two output
rows). -/
theorem songs_table_not_deduplicated_counterexample :
    (songs_table [sampleSong, sampleSong]).length = 2 ∧
    (songs_table [sampleSong, sampleSong]).dedup.length = 1 ∧
    ¬ (songs_table [sampleSong, sampleSong]).Nodup := by decide

/-- C1, amended: the artists, users and time dimension tables contain no
two identical rows (they are built with distinct()); the songs table is a
plain projection with one output row per input record, so duplicate
projected rows survive into it. -/
theorem dimension_uniqueness_amended (dfs : List SongRecord) (logs : List LogRecord) :
    (artist_table dfs).Nodup ∧ (users_table logs).Nodup ∧ (time_table logs).Nodup ∧
    (songs_table dfs).length = dfs.length :=
  ⟨List.nodup_dedup _, List.nodup_dedup _,
   List.Nodup.map addWeekday_injective (List.nodup_dedup _), by simp [songs_table]⟩

/-- C2: the claim says the start_time placed in the time and song-plays
tables is ts divided by 1000 interpreted as UTC, with minutes and seconds
preserved.  The code disagrees: the pattern string of line 147 uses MM
(month) where minutes were intended, so the format-then-parse round trip
of line 148 zeroes the minute field.  At raw ts 60000.0 (epoch second 60,
i.e. 1970-01-01 00:01:00) the pipeline materializes start_time epoch 0
(00:00:00) in both tables, not epoch 60 as the claim requires. -/
theorem ts_conversion_drops_minutes :
    (60000 : ℕ) / 1000 = 60 ∧ minuteOf 60 = 1 ∧
    (time_table (read_log [minuteLog])).map TimeRowW.start_time = [some 0] ∧
    (song_plays [sampleSong] (read_log [minuteLog])).map SongPlayRow.start_time = [some 0] ∧
    (some 0 : Option ℕ) ≠ some 60 := by decide

/-- C3: every time-table row carries, as its weekday column, the ISO
weekday number of its start_time, an integer between 1 (Monday, e.g.
1970-01-05) and 7 (Sunday, e.g. 1970-01-04); a raw ts of 0.0 decomposes
to 1970-01-01, hour 0, weekday 4 (Thursday). -/
theorem time_table_weekday_iso (logs : List LogRecord) (r : TimeRowW) (t : ℕ)
    (hr : r ∈ time_table logs) (ht : r.start_time = some t) :
    r.weekday = some (isoWeekday (epochDay t)) ∧
    1 ≤ isoWeekday (epochDay t) ∧ isoWeekday (epochDay t) ≤ 7 ∧
    isoWeekday (daysFromCivil 1970 1 5) = 1 ∧
    isoWeekday (daysFromCivil 1970 1 4) = 7 ∧
    time_table (read_log [epochLog]) =
      [⟨some 0, some 0, some 1, some 1, some 1, some 1970, some 4⟩] := by
  obtain ⟨-, -, -, hw⟩ := time_table_fields hr
  refine ⟨?_, (isoWeekday_range _).1, (isoWeekday_range _).2, by decide, by decide, by decide⟩
  rw [hw, ht]
  rfl

/-- C3 witness: the theorem applied to the one-row time table of the
epoch-boundary record. -/
theorem time_table_weekday_iso_witness :
    (⟨some 0, some 0, some 1, some 1, some 1, some 1970, some 4⟩ : TimeRowW).weekday
      = some (isoWeekday (epochDay 0)) ∧
    1 ≤ isoWeekday (epochDay 0) ∧ isoWeekday (epochDay 0) ≤ 7 ∧
    isoWeekday (daysFromCivil 1970 1 5) = 1 ∧
    isoWeekday (daysFromCivil 1970 1 4) = 7 ∧
    time_table (read_log [epochLog]) =
      [⟨some 0, some 0, some 1, some 1, some 1, some 1970, some 4⟩] :=
  time_table_weekday_iso (read_log [epochLog])
    ⟨some 0, some 0, some 1, some 1, some 1, some 1970, some 4⟩ 0 (by decide) rfl

/-- C4: a (song, converted log) pair is in the join of lines 184-186
exactly when the song is in the song source, the log row survived the
NextSong filter and conversion, and the two agree on artist name, title
and duration, each by exact non-null equality (no tolerance on the
floating-point duration); consequently every fact row's song_id and
artist_id come from a song record of the source, and unmatched log rows
yield no fact row. -/
theorem song_plays_inner_join_exact (songs : List SongRecord) (logs : List LogRecord) :
    (∀ s l, (s, l) ∈ song_plays_joined songs logs ↔
      s ∈ songs ∧ l ∈ df_converted logs ∧
      (∃ a, l.artist = some a ∧ s.artist_name = some a) ∧
      (∃ ti, l.song = some ti ∧ s.title = some ti) ∧
      (∃ d, l.length = some d ∧ s.duration = some d)) ∧
    (∀ p ∈ song_plays songs logs,
      ∃ s, s ∈ songs ∧ p.song_id = s.song_id ∧ p.artist_id = s.artist_id) := by
  constructor
  · intro s l
    rw [mem_song_plays_joined]
    simp only [optEq_eq_true_iff]
  · intro p hp
    obtain ⟨k, ⟨s', l'⟩, hpr, rfl⟩ := mem_addIds hp
    exact ⟨s', (mem_song_plays_joined.mp hpr).1, rfl, rfl⟩

/-- C4 witness: the matching sample pair is in the join of the sample
datasets (the converted log row keeps start_time epoch 1542999649). -/
theorem song_plays_inner_join_exact_witness :
    (sampleSong, { sampleLog with ts := some 1542999649 }) ∈
      song_plays_joined [sampleSong] (read_log [sampleLog]) :=
  ((song_plays_inner_join_exact [sampleSong] (read_log [sampleLog])).1 sampleSong
    { sampleLog with ts := some 1542999649 }).mpr
    ⟨by decide, by decide, ⟨"The Prodigy", by decide, by decide⟩,
     ⟨"Breathe", by decide, by decide⟩, ⟨(260 : ℚ), by decide, by decide⟩⟩

/-- C5: within one materialization of the song-plays fact table, any two
rows at distinct positions carry distinct songplay_id values (line 190
assigns each row a run-unique id). -/
theorem songplay_id_unique (songs : List SongRecord) (logs : List LogRecord) (i j : ℕ)
    (hi : i < (song_plays songs logs).length) (hj : j < (song_plays songs logs).length)
    (hij : i ≠ j) :
    ((song_plays songs logs).get ⟨i, hi⟩).songplay_id ≠
      ((song_plays songs logs).get ⟨j, hj⟩).songplay_id := by
  unfold song_plays at hi hj ⊢
  rw [addIds_songplay_id, addIds_songplay_id]
  omega

/-- C5 witness: the two fact rows produced by two plays of the sample
song carry different ids. -/
theorem songplay_id_unique_witness :
    ((song_plays [sampleSong] (read_log [sampleLog, sampleLog2])).get
        ⟨0, by decide⟩).songplay_id ≠
    ((song_plays [sampleSong] (read_log [sampleLog, sampleLog2])).get
        ⟨1, by decide⟩).songplay_id :=
  songplay_id_unique [sampleSong] (read_log [sampleLog, sampleLog2]) 0 1
    (by decide) (by decide) (by decide)

/-- C6: a fact row and a time-table row that share a start_time carry the
same month and year, both being derived from the shared converted
timestamp by the same month and year functions (lines 152-157 and
194-204). -/
theorem fact_time_month_year_consistent (songs : List SongRecord) (logs : List LogRecord)
    (p : SongPlayRow) (r : TimeRowW) (hp : p ∈ song_plays songs logs)
    (hr : r ∈ time_table logs) (hst : r.start_time = p.start_time) :
    p.month = r.month ∧ p.year = r.year := by
  obtain ⟨hpm, hpy⟩ := song_plays_fields hp
  obtain ⟨hrm, hry, -, -⟩ := time_table_fields hr
  rw [hpm, hpy, hrm, hry, hst]
  exact ⟨rfl, rfl⟩

/-- C6 witness: the theorem applied to the sample fact row and the sample
time row, which share start_time epoch 1542999649 (November 2018). -/
theorem fact_time_month_year_consistent_witness :
    (⟨0, some 1542999649, some "50", some "free", some "SO001", some "AR001", some 7,
      some "New Haven", some "Mozilla", some 11, some 2018⟩ : SongPlayRow).month =
      (⟨some 1542999649, some 19, some 23, some 47, some 11, some 2018,
        some 5⟩ : TimeRowW).month ∧
    (⟨0, some 1542999649, some "50", some "free", some "SO001", some "AR001", some 7,
      some "New Haven", some "Mozilla", some 11, some 2018⟩ : SongPlayRow).year =
      (⟨some 1542999649, some 19, some 23, some 47, some 11, some 2018,
        some 5⟩ : TimeRowW).year :=
  fact_time_month_year_consistent [sampleSong] (read_log [sampleLog])
    ⟨0, some 1542999649, some "50", some "free", some "SO001", some "AR001", some 7,
      some "New Haven", some "Mozilla", some 11, some 2018⟩
    ⟨some 1542999649, some 19, some 23, some 47, some 11, some 2018, some 5⟩
    (by decide) (by decide) (by decide)

/-- C7: over a log dataset whose page values are NextSong, Login and
Help, the time table and the song-plays fact table are unchanged when the
non-NextSong rows are removed: only NextSong rows contribute to either
table (the filter of line 130 feeds both). -/
theorem filter_only_nextsong_contributes (songs : List SongRecord) (logs : List LogRecord)
    (hpages : ∀ l ∈ logs,
      l.page = some "NextSong" ∨ l.page = some "Login" ∨ l.page = some "Help") :
    time_table logs = time_table (df_filtered logs) ∧
    song_plays songs logs = song_plays songs (df_filtered logs) := by
  constructor
  · unfold time_table time_table_base
    rw [df_converted_of_filtered]
  · unfold song_plays song_plays_joined
    rw [df_converted_of_filtered]

/-- C7 witness: the theorem applied to a three-row log dataset with one
NextSong, one Login and one Help event. -/
theorem filter_only_nextsong_contributes_witness :
    time_table [sampleLog, loginLog, helpLog] =
      time_table (df_filtered [sampleLog, loginLog, helpLog]) ∧
    song_plays [sampleSong] [sampleLog, loginLog, helpLog] =
      song_plays [sampleSong] (df_filtered [sampleLog, loginLog, helpLog]) :=
  filter_only_nextsong_contributes [sampleSong] [sampleLog, loginLog, helpLog] (by decide)

/-- C8: empty raw inputs (a glob matching zero files) flow through every
stage without error and every output table is the empty, correctly-typed
table. -/
theorem empty_input_all_tables_empty :
    read_log [] = [] ∧ process_song_data [] = ([], []) ∧
    process_log_data [] [] = ([], [], []) := by decide

/-- C9: the users table is built from the NextSong-filtered dataframe
(line 134), so a user id whose log rows are never NextSong events does
not appear in any users-table row. -/
theorem users_table_only_nextsong (logs : List LogRecord) (u : String)
    (h : ∀ l ∈ logs, l.userId = some u → l.page ≠ some "NextSong")
    (r : UserRow) (hr : r ∈ users_table logs) : r.user_id ≠ some u := by
  unfold users_table at hr
  rw [List.mem_dedup] at hr
  obtain ⟨l, hl, rfl⟩ := List.mem_map.mp hr
  obtain ⟨hmem, hpage⟩ := mem_df_filtered.mp hl
  intro hu
  exact h l hmem hu hpage

/-- C9 witness: user 99 produced only a Login event, so the single
users-table row (user 50) is not user 99. -/
theorem users_table_only_nextsong_witness :
    (⟨some "50", some "Ava", some "Robinson", some "F", some "free"⟩ : UserRow).user_id
      ≠ some "99" :=
  users_table_only_nextsong [sampleLog, loginLog] "99" (by decide)
    ⟨some "50", some "Ava", some "Robinson", some "F", some "free"⟩ (by decide)

/-- C10: the ts column is read as a binary32 float (line 118), so every
value in the binade of realistic epoch-millisecond timestamps (between 2
to the 40 and 2 to the 41, about 1.1e12 to 2.2e12) is rounded to a
multiple of 2 to the 17 = 131072 milliseconds; two sample log rows whose
raw ts values differ by 60000 ms (a full minute, less than that step)
read to the same value and collapse into a single time-table row. -/
theorem ts_float32_granularity_collapse :
    (∀ t : ℕ, 2 ^ 40 ≤ t → t < 2 ^ 41 → f32round t % 2 ^ 17 = 0) ∧
    collideLogA.ts = some 1542999769088 ∧
    collideLogB.ts = some 1542999829088 ∧
    collideLogA ≠ collideLogB ∧
    (1542999829088 - 1542999769088 : ℕ) = 60000 ∧ (60000 : ℕ) < 2 ^ 17 ∧
    f32round 1542999769088 = f32round 1542999829088 ∧
    (read_log [collideLogA, collideLogB]).length = 2 ∧
    (time_table (read_log [collideLogA, collideLogB])).length = 1 :=
  ⟨fun _ h1 h2 => f32round_granularity h1 h2, by decide, by decide, by decide,
   by decide, by decide, by decide, by decide, by decide⟩

/-- C10 witness: the granularity statement applied at the lower end of
the binade. -/
theorem ts_float32_granularity_collapse_witness :
    f32round (2 ^ 40) % 2 ^ 17 = 0 :=
  ts_float32_granularity_collapse.1 (2 ^ 40) (le_refl _) (by norm_num)
